import Mathlib

/-!
Verification development for the v7-monitor client-side authentication
session persistence and recovery protocol (src/utils/auth.py, src/app.py).

The Python code is shallowly embedded: `st.session_state` becomes the
`SessionState` structure, the browser's storage areas become the `Browser`
structure, the values delivered back by the browser-side bridge in one
render pass become `BridgeView`, and network outcomes of `requests.post`
become `NetResult`.  Machine integers and timestamps are modelled as `Nat`
(seconds); `datetime.now() + timedelta(days=d)` becomes `now + d * 86400`.
JSON payloads stored in localStorage / the cookie are modelled at the
parsed level by `AuthData` (a stored string that fails `json.loads`, or
parses to a non-dict, is `StoredVal.malformed`; an absent / empty — falsy —
stored value is `none`).
-/

namespace V7

/-! ### SHA-256 (hashlib.sha256, FIPS 180-4), used by `_compute_checksum` -/

/-- Truncate to a 32-bit word, `n % 2^32`. -/
def w32 (n : Nat) : Nat := n % 4294967296

/-- 32-bit right rotation. -/
def rotr (k x : Nat) : Nat := w32 ((x >>> k) ||| (x <<< (32 - k)))

/-- 32-bit bitwise complement. -/
def compl32 (x : Nat) : Nat := 4294967295 ^^^ x

def ch (x y z : Nat) : Nat := (x &&& y) ^^^ (compl32 x &&& z)

def maj (x y z : Nat) : Nat := (x &&& y) ^^^ (x &&& z) ^^^ (y &&& z)

def bigSigma0 (x : Nat) : Nat := rotr 2 x ^^^ rotr 13 x ^^^ rotr 22 x

def bigSigma1 (x : Nat) : Nat := rotr 6 x ^^^ rotr 11 x ^^^ rotr 25 x

def smallSigma0 (x : Nat) : Nat := rotr 7 x ^^^ rotr 18 x ^^^ (x >>> 3)

def smallSigma1 (x : Nat) : Nat := rotr 17 x ^^^ rotr 19 x ^^^ (x >>> 10)

/-- The 64 SHA-256 round constants. -/
def sha256K : Array Nat := #[
  1116352408, 1899447441, 3049323471, 3921009573, 961987163, 1508970993,
  2453635748, 2870763221, 3624381080, 310598401, 607225278, 1426881987,
  1925078388, 2162078206, 2614888103, 3248222580, 3835390401, 4022224774,
  264347078, 604807628, 770255983, 1249150122, 1555081692, 1996064986,
  2554220882, 2821834349, 2952996808, 3210313671, 3336571891, 3584528711,
  113926993, 338241895, 666307205, 773529912, 1294757372, 1396182291,
  1695183700, 1986661051, 2177026350, 2456956037, 2730485921, 2820302411,
  3259730800, 3345764771, 3516065817, 3600352804, 4094571909, 275423344,
  430227734, 506948616, 659060556, 883997877, 958139571, 1322822218,
  1537002063, 1747873779, 1955562222, 2024104815, 2227730452, 2361852424,
  2428436474, 2756734187, 3204031479, 3329325298]

/-- SHA-256 initial hash value. -/
def sha256H0 : Array Nat := #[
  1779033703, 3144134277, 1013904242, 2773480762, 1359893119,
  2600822924, 528734635, 1541459225]

/-- Pad a byte message per FIPS 180-4: append 0x80, zeros to 56 mod 64,
then the 64-bit big-endian bit length. -/
def sha256Pad (msg : List Nat) : List Nat :=
  let bitLen := 8 * msg.length
  let padZeros := (64 + 56 - (msg.length + 1) % 64) % 64
  msg ++ [0x80] ++ List.replicate padZeros 0 ++
    ((List.range 8).map fun i => (bitLen >>> (8 * (7 - i))) % 256)

/-- Split a padded byte list into 16-word (big-endian) blocks. -/
def sha256Blocks (bytes : List Nat) : List (Array Nat) :=
  let words := (List.range (bytes.length / 4)).map fun i =>
    (bytes.getD (4 * i) 0) <<< 24 ||| (bytes.getD (4 * i + 1) 0) <<< 16 |||
    (bytes.getD (4 * i + 2) 0) <<< 8 ||| bytes.getD (4 * i + 3) 0
  (List.range (words.length / 16)).map fun b =>
    ((List.range 16).map fun i => words.getD (16 * b + i) 0).toArray

/-- Extend a 16-word block to the 64-word message schedule. -/
def sha256Schedule (block : Array Nat) : Array Nat :=
  (List.range 48).foldl (fun w i =>
    let t := i + 16
    w.push (w32 (smallSigma1 (w.getD (t - 2) 0) + w.getD (t - 7) 0 +
                 smallSigma0 (w.getD (t - 15) 0) + w.getD (t - 16) 0)))
    block

/-- One SHA-256 compression round. -/
def sha256Round (st : Array Nat) (kt wt : Nat) : Array Nat :=
  let a := st.getD 0 0
  let b := st.getD 1 0
  let c := st.getD 2 0
  let d := st.getD 3 0
  let e := st.getD 4 0
  let f := st.getD 5 0
  let g := st.getD 6 0
  let h := st.getD 7 0
  let t1 := w32 (h + bigSigma1 e + ch e f g + kt + wt)
  let t2 := w32 (bigSigma0 a + maj a b c)
  #[w32 (t1 + t2), a, b, c, w32 (d + t1), e, f, g]

/-- Compress one block into the running hash. -/
def sha256Compress (h : Array Nat) (block : Array Nat) : Array Nat :=
  let w := sha256Schedule block
  let st := (List.range 64).foldl
    (fun st t => sha256Round st (sha256K.getD t 0) (w.getD t 0)) h
  (List.range 8).toArray.map fun i => w32 (h.getD i 0 + st.getD i 0)

/-- SHA-256 digest of a byte message, as eight 32-bit words. -/
def sha256Words (msg : List Nat) : Array Nat :=
  (sha256Blocks (sha256Pad msg)).foldl sha256Compress sha256H0

/-- Lowercase hex digit. -/
def hexChar (n : Nat) : Char :=
  if n < 10 then Char.ofNat (48 + n) else Char.ofNat (87 + n)

/-- A 32-bit word as 8 lowercase hex characters. -/
def toHex8 (n : Nat) : String :=
  String.mk ((List.range 8).map fun i => hexChar ((n >>> (4 * (7 - i))) % 16))

/-- Python `hashlib.sha256(s.encode()).hexdigest()`: the UTF-8 bytes of `s`,
hashed, rendered as 64 lowercase hex characters. -/
def sha256Hexdigest (s : String) : String :=
  String.join ((sha256Words (s.toUTF8.toList.map UInt8.toNat)).toList.map toHex8)

/-! ### Constants (src/utils/auth.py lines 40-46) -/

def COOKIE_EXPIRY_DAYS : Nat := 7

def MAX_RESTORE_ATTEMPTS : Nat := 2

/-! ### Data model -/

/-- The parsed auth payload dict saved by `save_auth_dual` and read back by
`load_auth_from_localstorage` / `load_auth_cookie`.  A field is `none` when
the key is absent from the dict (Python `"k" not in d` / `d.get("k") is
None`).  Timestamps are seconds as `Nat`. -/
structure AuthData where
  email : Option String
  refresh_token : Option String
  saved_at : Option Nat
  expires_at : Option Nat
  checksum : Option String
deriving DecidableEq, Repr

/-- A value present in one browser storage slot: either a string that
`json.loads` rejects (or that parses to something other than a dict with
the expected shape), or a well-formed payload. -/
inductive StoredVal where
  | malformed
  | payload (d : AuthData)
deriving DecidableEq, Repr

/-- The browser's true storage state.  The auth code reads and writes only
`localStorage` (key `v7_auth_data`) and `cookie` (name `v7_auth`);
`sessionStorage` is the browser's tab-scoped store, which no auth
read/write path touches. -/
structure Browser where
  sessionStorage : Option StoredVal
  localStorage : Option StoredVal
  cookie : Option StoredVal
deriving DecidableEq, Repr

/-- What the browser-side bridge delivered to the server during this render
pass: the result of `streamlit_js_eval("localStorage.getItem(...)")` and of
`cookie_manager.get(COOKIE_NAME)`.  `none` covers both "no value stored"
and "component round-trip not yet resolved" (both are falsy in Python). -/
structure BridgeView where
  ls : Option StoredVal
  ck : Option StoredVal
deriving DecidableEq, Repr

/-- A fully resolved bridge view: the browser has answered with exactly
what its storage holds. -/
def viewOf (b : Browser) : BridgeView := ⟨b.localStorage, b.cookie⟩

/-- The `st.session_state` keys written by src/utils/auth.py
(`init_session` defaults, auth.py lines 80-92). -/
structure SessionState where
  user_token : Option String
  user_email : Option String
  refresh_token : Option String
  user_id : Option String
  username : Option String
  remember_me : Bool
  cookie_restore_attempts : Nat
  cookie_restore_done : Bool
  visibility_listener_injected : Bool
deriving DecidableEq, Repr

/-- The `init_session` defaults (auth.py lines 80-92). -/
def initState : SessionState :=
  ⟨none, none, none, none, none, false, 0, false, false⟩

/-- Embeds `is_authenticated` (auth.py lines 98-100):
`st.session_state.get('user_token') is not None`. -/
def is_authenticated (s : SessionState) : Bool :=
  s.user_token.isSome

/-- Body of a JSON response, with the keys the client reads. -/
structure RespBody where
  access_token : Option String
  refresh_token : Option String
  detail : Option String
deriving DecidableEq, Repr

/-- An HTTP response; `body = none` models a body that `response.json()`
fails to parse (raising, caught by the surrounding `except`). -/
structure HttpResponse where
  status : Nat
  body : Option RespBody
deriving DecidableEq, Repr

/-- Outcome of one `requests.post` call. -/
inductive NetResult where
  | response (r : HttpResponse)
  | timeout
  | connError
  | otherError (msg : String)
deriving DecidableEq, Repr

/-! ### Dual storage layer (auth.py lines 120-311) -/

/-- Embeds `_compute_checksum` (auth.py lines 120-122):
`hashlib.sha256(f"{email}:{refresh_token}".encode()).hexdigest()[:16]`. -/
def _compute_checksum (email refresh_token : String) : String :=
  (sha256Hexdigest (email ++ ":" ++ refresh_token)).take 16

/-- The auth dict built by `save_auth_dual` (auth.py lines 138-147). -/
def auth_payload (email refresh_token : String) (now : Nat) : AuthData :=
  { email := some email
    refresh_token := some refresh_token
    saved_at := some now
    expires_at := some (now + COOKIE_EXPIRY_DAYS * 86400)
    checksum := some (_compute_checksum email refresh_token) }

/-- Embeds `save_auth_dual` (auth.py lines 125-176): writes the payload JSON into
localStorage and, as backup, the cookie (expiry 7 days).  The JS-string
escaping and JSON serialization round-trip is modelled at the parsed
level. -/
def save_auth_dual (b : Browser) (email refresh_token : String) (now : Nat) : Browser :=
  let v := StoredVal.payload (auth_payload email refresh_token now)
  { b with localStorage := some v, cookie := some v }

/-- The checksum and expiry validation block that auth.py duplicates
verbatim in `load_auth_from_localstorage` (lines 213-227) and
`load_auth_cookie` (lines 267-281): reject when a present `checksum`
differs from `_compute_checksum(email, refresh_token)`, reject when a
present `expires_at` lies in the past (`datetime.now() > expires_at`),
otherwise return the payload. -/
def validate_checksum_expiry (d : AuthData) (e r : String) (now : Nat) : Option AuthData :=
  match d.checksum with
  | some c =>
    if c ≠ _compute_checksum e r then none
    else
      match d.expires_at with
      | some t => if now > t then none else some d
      | none => some d
  | none =>
    match d.expires_at with
    | some t => if now > t then none else some d
    | none => some d

/-- Embeds `load_auth_from_localstorage` (auth.py lines 179-237), applied to the
value the bridge returned this pass.  `if not result: return None`; then
`json.loads` (failure → None); then `if not auth_data.get("email") or not
auth_data.get("refresh_token")` rejects an absent *or empty* field; then
the shared checksum/expiry validation. -/
def load_auth_from_localstorage (v : Option StoredVal) (now : Nat) : Option AuthData :=
  match v with
  | none => none
  | some .malformed => none
  | some (.payload d) =>
    match d.email, d.refresh_token with
    | some e, some r =>
      if e = "" ∨ r = "" then none
      else validate_checksum_expiry d e r now
    | _, _ => none

/-- Embeds `load_auth_cookie` (auth.py lines 240-288), applied to the value the
cookie manager returned.  Differs from the localStorage loader in the
field check: `if "email" not in auth_data or "refresh_token" not in
auth_data` tests key *presence* only, so empty strings pass. -/
def load_auth_cookie (v : Option StoredVal) (now : Nat) : Option AuthData :=
  match v with
  | none => none
  | some .malformed => none
  | some (.payload d) =>
    match d.email, d.refresh_token with
    | some e, some r => validate_checksum_expiry d e r now
    | _, _ => none

/-- Embeds `clear_auth_storage` (auth.py lines 291-311): removes the localStorage
entry and deletes the cookie (each attempt independently guarded). -/
def clear_auth_storage (b : Browser) : Browser :=
  { b with localStorage := none, cookie := none }

/-- Embeds `_sync_clear_auth_storage` (auth.py lines 597-612): deletes only the
cookie; per its docstring, localStorage is deliberately left in place ("會
在下次登入時被覆蓋"). -/
def _sync_clear_auth_storage (b : Browser) : Browser :=
  { b with cookie := none }

/-! ### Session restoration (auth.py lines 486-594) and login/logout -/

/-- Result of one `try_restore_session` render pass: the new session
state, the browser storage after any clear, the boolean return value, the
number of bridge read invocations performed this pass, and the number of
network requests issued this pass. -/
structure RestoreOutcome where
  state : SessionState
  browser : Browser
  result : Bool
  storageReads : Nat
  gatewayCalls : Nat
deriving DecidableEq, Repr

/-- The multi-source read block of `try_restore_session` (auth.py lines
526-547): try localStorage first, the cookie as fallback; also counts how
many bridge reads were issued (the cookie is consulted only when the
localStorage read yields nothing usable). -/
def restore_read (view : BridgeView) (now : Nat) : Option AuthData × Nat :=
  match load_auth_from_localstorage view.ls now with
  | some d => (some d, 1)
  | none =>
    match load_auth_cookie view.ck now with
    | some d => (some d, 2)
    | none => (none, 2)

/-- Modelled from the spec, NOT from the source, for comparison with
`restore_read` (spec §4.2 READ mode): "attempt retrieval in priority
order — tab-scoped store, then origin-persistent store, then cookie —
returning the first value meeting a minimum-length sanity check (≥20
characters)".  At the parsed level every stored value stands for a
non-empty raw string whose exact length the model does not track, so the
length-only sanity check is rendered as taking the first tier holding any
stored value.  The source has no counterpart for the tab-scoped tier:
auth.py reads only `localStorage.getItem('v7_auth_data')` (line 199) and
`cookie_manager.get(COOKIE_NAME)` (line 256). -/
def restore_read_spec (b : Browser) : Option StoredVal :=
  match b.sessionStorage with
  | some v => some v
  | none =>
    match b.localStorage with
    | some v => some v
    | none => b.cookie

/-- The tail of `try_restore_session` after a payload was read (auth.py
lines 549-594): check `email`/`refresh_token` truthiness, then POST
`/auth/refresh`.  200 → populate session state and return True; non-200 →
`_sync_clear_auth_storage` and give up; Timeout / ConnectionError / any
other exception → give up with storage untouched. -/
def restore_exchange (s : SessionState) (b : Browser) (d : AuthData)
    (reads : Nat) (net : NetResult) : RestoreOutcome :=
  match d.email, d.refresh_token with
  | some e, some rt =>
    if e = "" ∨ rt = "" then
      ⟨{ s with cookie_restore_done := true }, b, false, reads, 0⟩
    else
      match net with
      | .response r =>
        if r.status = 200 then
          match r.body with
          | some body =>
            match body.access_token with
            | some atk =>
              ⟨{ s with user_token := some atk, refresh_token := some rt,
                        user_email := some e, remember_me := true,
                        cookie_restore_done := true }, b, true, reads, 1⟩
            | none =>
              -- data["access_token"] raises KeyError → except Exception
              ⟨{ s with cookie_restore_done := true }, b, false, reads, 1⟩
          | none =>
            -- response.json() raises → except Exception
            ⟨{ s with cookie_restore_done := true }, b, false, reads, 1⟩
        else
          ⟨{ s with cookie_restore_done := true }, _sync_clear_auth_storage b,
            false, reads, 1⟩
      | .timeout =>
        ⟨{ s with cookie_restore_done := true }, b, false, reads, 1⟩
      | .connError =>
        ⟨{ s with cookie_restore_done := true }, b, false, reads, 1⟩
      | .otherError _ =>
        ⟨{ s with cookie_restore_done := true }, b, false, reads, 1⟩
  | _, _ =>
    -- unreachable after either loader, kept for line-faithfulness
    ⟨{ s with cookie_restore_done := true }, b, false, reads, 0⟩

/-- Embeds `try_restore_session` (auth.py lines 486-594), one render pass.
`view` is what the bridge delivers this pass, `net` the outcome the
`/auth/refresh` POST would have if issued, `now` the current time. -/
def try_restore_session (s : SessionState) (b : Browser) (view : BridgeView)
    (net : NetResult) (now : Nat) : RestoreOutcome :=
  if is_authenticated s then
    ⟨{ s with cookie_restore_done := true }, b, true, 0, 0⟩
  else if s.cookie_restore_done then
    ⟨s, b, false, 0, 0⟩
  else
    -- `attempts` is read before the increment, so the ≥ test sees the old
    -- value while the stored counter is already attempts + 1
    if s.cookie_restore_attempts ≥ MAX_RESTORE_ATTEMPTS then
      ⟨{ s with cookie_restore_attempts := s.cookie_restore_attempts + 1,
                cookie_restore_done := true }, b, false, 0, 0⟩
    else
      match restore_read view now with
      | (some d, reads) =>
        restore_exchange
          { s with cookie_restore_attempts := s.cookie_restore_attempts + 1 }
          b d reads net
      | (none, reads) =>
        ⟨{ s with cookie_restore_attempts := s.cookie_restore_attempts + 1,
                  cookie_restore_done := true }, b, false, reads, 0⟩

/-- The `{"success": ..., "message": ...}` dict returned by `login`. -/
structure LoginResult where
  success : Bool
  message : String
deriving DecidableEq, Repr

/-- Embeds `login` (auth.py lines 617-665).  On 200: store tokens in session
state (assignments modelled in source order, so a missing
`refresh_token` key leaves `user_token` already written before the
KeyError) and, when `remember_me`, `save_auth_dual`.  On non-200: message
is `response.json().get("detail", "登入失敗")`.  Timeout and
ConnectionError return fixed generic messages. -/
def login (s : SessionState) (b : Browser) (email _password : String)
    (remember_me : Bool) (net : NetResult) (now : Nat) :
    SessionState × Browser × LoginResult :=
  match net with
  | .response r =>
    if r.status = 200 then
      match r.body with
      | some body =>
        match body.access_token with
        | some atk =>
          let s1 := { s with user_token := some atk }
          match body.refresh_token with
          | some rtk =>
            let s2 := { s1 with refresh_token := some rtk,
                                user_email := some email,
                                remember_me := remember_me,
                                cookie_restore_done := true }
            let b2 := if remember_me then save_auth_dual b email rtk now else b
            (s2, b2, ⟨true, "登入成功"⟩)
          | none => (s1, b, ⟨false, "登入失敗：KeyError"⟩)
        | none => (s, b, ⟨false, "登入失敗：KeyError"⟩)
      | none => (s, b, ⟨false, "登入失敗：JSONDecodeError"⟩)
    else
      match r.body with
      | some body => (s, b, ⟨false, body.detail.getD "登入失敗"⟩)
      | none => (s, b, ⟨false, "登入失敗：JSONDecodeError"⟩)
  | .timeout => (s, b, ⟨false, "連接超時，請稍後再試"⟩)
  | .connError => (s, b, ⟨false, "無法連接伺服器"⟩)
  | .otherError m => (s, b, ⟨false, "登入失敗：" ++ m⟩)

/-- Embeds `logout` (auth.py lines 668-707).  The server notification is inside
`try: ... except Exception: pass`, so its outcome `_net` never influences
the rest: `clear_auth_storage` runs and every session field is reset. -/
def logout (s : SessionState) (b : Browser) (_net : NetResult) :
    SessionState × Browser :=
  let b := clear_auth_storage b
  ({ s with user_token := none, user_email := none, refresh_token := none,
            user_id := none, username := none, remember_me := false,
            cookie_restore_attempts := 0, cookie_restore_done := false,
            visibility_listener_injected := false }, b)

/-! ### `main` (src/app.py lines 1452-1487) -/

/-- What one render pass ends up showing. -/
inductive Page where
  | loading
  | authPage
  | monitor
deriving DecidableEq, Repr

/-- The lookup `st.session_state.get('auth_restore_done')` as read at app.py line
1478.  No statement anywhere in the repository assigns this key (the
restore flow sets `cookie_restore_done` instead), so the lookup always
returns `None`, which is falsy. -/
def get_auth_restore_done (_s : SessionState) : Bool := false

/-- One render pass of `main` (app.py lines 1452-1487): `init_session`
(the state is already initialized in the model), `try_restore_session`,
then either the loading screen plus `st.stop()` (when unauthenticated
and `auth_restore_done` is unset), the auth page, or the monitor page. -/
def main_render (s : SessionState) (b : Browser) (view : BridgeView)
    (net : NetResult) (now : Nat) : SessionState × Browser × Page × Nat :=
  let o := try_restore_session s b view net now
  if ¬ is_authenticated o.state then
    if ¬ get_auth_restore_done o.state then
      (o.state, o.browser, Page.loading, o.gatewayCalls)
    else
      (o.state, o.browser, Page.authPage, o.gatewayCalls)
  else
    (o.state, o.browser, Page.monitor, o.gatewayCalls)

/-- Iterated render passes of `main` for a fresh anonymous visit: the
bridge never delivers a value (nothing is stored), the server is never
reached.  Returns the state, browser, the page shown on the pass, and the
cumulative number of Credential Gateway calls. -/
def runAnon (b : Browser) (net : NetResult) (now : Nat) :
    Nat → SessionState × Browser × Page × Nat
  | 0 =>
    let r := main_render initState b ⟨none, none⟩ net now
    (r.1, r.2.1, r.2.2.1, r.2.2.2)
  | n + 1 =>
    let r := runAnon b net now n
    let r2 := main_render r.1 r.2.1 ⟨none, none⟩ net now
    (r2.1, r2.2.1, r2.2.2.1, r.2.2.2 + r2.2.2.2)

/-! ### Helper lemmas -/

/-- Every branch of `restore_exchange` sets the done flag. -/
lemma restore_exchange_done (s : SessionState) (b : Browser) (d : AuthData)
    (reads : Nat) (net : NetResult) :
    (restore_exchange s b d reads net).state.cookie_restore_done = true := by
  unfold restore_exchange
  repeat' split
  all_goals rfl

/-- Every path through `try_restore_session` either keeps an already-set
done flag or sets it: the flag is true after any render pass. -/
lemma restore_sets_done (s : SessionState) (b : Browser) (view : BridgeView)
    (net : NetResult) (now : Nat) :
    (try_restore_session s b view net now).state.cookie_restore_done = true := by
  unfold try_restore_session
  split
  · rfl
  · split
    · next h3 => simpa using h3
    · split
      · rfl
      · split
        · apply restore_exchange_done
        · rfl

/-- Once the done flag is set and no token is in memory, a restore pass is
a pure no-op: it returns False with zero bridge reads and zero network
calls. -/
lemma restore_noop (s : SessionState) (b : Browser) (view : BridgeView)
    (net : NetResult) (now : Nat) (ht : s.user_token = none)
    (hd : s.cookie_restore_done = true) :
    try_restore_session s b view net now = ⟨s, b, false, 0, 0⟩ := by
  unfold try_restore_session
  simp [is_authenticated, ht, hd]

/-- The shared checksum/expiry block accepts exactly when a present
checksum matches and a present expiry has not passed. -/
lemma validate_checksum_expiry_iff (d : AuthData) (e r : String) (now : Nat) :
    validate_checksum_expiry d e r now = some d ↔
      (∀ c, d.checksum = some c → c = _compute_checksum e r) ∧
      (∀ t, d.expires_at = some t → now ≤ t) := by
  rcases hcs : d.checksum with _ | c <;> rcases hexp : d.expires_at with _ | t <;>
    simp [validate_checksum_expiry, hcs, hexp]

/-- The localStorage loader returns either nothing or exactly the stored
payload. -/
lemma load_ls_payload_none_or_self (d0 : AuthData) (now : Nat) :
    load_auth_from_localstorage (some (.payload d0)) now = none ∨
    load_auth_from_localstorage (some (.payload d0)) now = some d0 := by
  unfold load_auth_from_localstorage validate_checksum_expiry
  repeat' split
  all_goals simp_all

/-- The cookie loader returns either nothing or exactly the stored
payload. -/
lemma load_ck_payload_none_or_self (d0 : AuthData) (now : Nat) :
    load_auth_cookie (some (.payload d0)) now = none ∨
    load_auth_cookie (some (.payload d0)) now = some d0 := by
  unfold load_auth_cookie validate_checksum_expiry
  repeat' split
  all_goals simp_all

/-- A successful localStorage load came from a stored copy of exactly
that payload. -/
lemma load_ls_eq_payload (v : Option StoredVal) (now : Nat) (d : AuthData)
    (h : load_auth_from_localstorage v now = some d) :
    v = some (.payload d) := by
  match v with
  | none => simp [load_auth_from_localstorage] at h
  | some .malformed => simp [load_auth_from_localstorage] at h
  | some (.payload d0) =>
    rcases load_ls_payload_none_or_self d0 now with h0 | h0
    · rw [h0] at h
      exact absurd h (by simp)
    · rw [h0] at h
      rw [Option.some_inj.mp h]

/-- A successful cookie load came from a stored copy of exactly that
payload. -/
lemma load_ck_eq_payload (v : Option StoredVal) (now : Nat) (d : AuthData)
    (h : load_auth_cookie v now = some d) :
    v = some (.payload d) := by
  match v with
  | none => simp [load_auth_cookie] at h
  | some .malformed => simp [load_auth_cookie] at h
  | some (.payload d0) =>
    rcases load_ck_payload_none_or_self d0 now with h0 | h0
    · rw [h0] at h
      exact absurd h (by simp)
    · rw [h0] at h
      rw [Option.some_inj.mp h]

/-- Acceptance condition of the localStorage loader on a stored payload
with both fields present. -/
lemma load_ls_accept_iff (d : AuthData) (now : Nat) (e r : String)
    (he : d.email = some e) (hr : d.refresh_token = some r) :
    load_auth_from_localstorage (some (.payload d)) now = some d ↔
      (e ≠ "" ∧ r ≠ "" ∧
       (∀ c, d.checksum = some c → c = _compute_checksum e r) ∧
       (∀ t, d.expires_at = some t → now ≤ t)) := by
  by_cases h0 : e = "" ∨ r = ""
  · simp only [load_auth_from_localstorage, he, hr, if_pos h0]
    constructor
    · intro h
      exact absurd h (by simp)
    · intro h
      rcases h0 with h0 | h0 <;> tauto
  · simp only [load_auth_from_localstorage, he, hr, if_neg h0]
    rw [validate_checksum_expiry_iff]
    push_neg at h0
    tauto

/-- Acceptance condition of the cookie loader on a stored payload with
both fields present: no non-emptiness requirement. -/
lemma load_ck_accept_iff (d : AuthData) (now : Nat) (e r : String)
    (he : d.email = some e) (hr : d.refresh_token = some r) :
    load_auth_cookie (some (.payload d)) now = some d ↔
      ((∀ c, d.checksum = some c → c = _compute_checksum e r) ∧
       (∀ t, d.expires_at = some t → now ≤ t)) := by
  simp only [load_auth_cookie, he, hr]
  exact validate_checksum_expiry_iff d e r now

/-- Both loaders accept the payload `save_auth_dual` writes, as long as
the written email and refresh token are non-empty and the payload has not
expired. -/
lemma save_payload_loads (email rt : String) (n now : Nat)
    (he : email ≠ "") (hr : rt ≠ "")
    (hn : now ≤ n + COOKIE_EXPIRY_DAYS * 86400) :
    load_auth_from_localstorage (some (.payload (auth_payload email rt n))) now =
      some (auth_payload email rt n) ∧
    load_auth_cookie (some (.payload (auth_payload email rt n))) now =
      some (auth_payload email rt n) := by
  constructor
  · rw [load_ls_accept_iff (auth_payload email rt n) now email rt rfl rfl]
    refine ⟨he, hr, ?_, ?_⟩
    · intro c hc
      exact (Option.some_inj.mp hc).symm
    · intro t ht
      rw [← Option.some_inj.mp ht]
      exact hn
  · rw [load_ck_accept_iff (auth_payload email rt n) now email rt rfl rfl]
    refine ⟨?_, ?_⟩
    · intro c hc
      exact (Option.some_inj.mp hc).symm
    · intro t ht
      rw [← Option.some_inj.mp ht]
      exact hn

/-! ### Claim theorems -/

/-- C4: if browser storage never yields a credential, session restoration
gives up within a fixed small number of render passes governed by
`MAX_RESTORE_ATTEMPTS` (= 2 ≤ 3): every pass sets the done flag, and once
it is set every subsequent `try_restore_session` call returns False while
performing zero bridge reads and zero network calls — restoration never
loops indefinitely. -/
theorem restore_attempts_bounded :
    MAX_RESTORE_ATTEMPTS = 2 ∧
    (∀ (s : SessionState) (b : Browser) (view : BridgeView) (net : NetResult)
       (now : Nat),
      (try_restore_session s b view net now).state.cookie_restore_done = true) ∧
    (∀ (s : SessionState) (b : Browser) (view : BridgeView) (net : NetResult)
       (now : Nat),
      s.user_token = none → s.cookie_restore_done = true →
      try_restore_session s b view net now = ⟨s, b, false, 0, 0⟩) :=
  ⟨rfl, restore_sets_done,
   fun s b view net now ht hd => restore_noop s b view net now ht hd⟩

/-- C4 witness: a concrete post-giving-up state really is a no-op pass. -/
theorem restore_attempts_bounded_witness :
    try_restore_session ⟨none, none, none, none, none, false, 1, true, false⟩
        ⟨none, none, none⟩ ⟨none, none⟩ NetResult.timeout 0 =
      ⟨⟨none, none, none, none, none, false, 1, true, false⟩,
       ⟨none, none, none⟩, false, 0, 0⟩ :=
  restore_attempts_bounded.2.2
    ⟨none, none, none, none, none, false, 1, true, false⟩
    ⟨none, none, none⟩ ⟨none, none⟩ NetResult.timeout 0 rfl rfl

/-- C6: on a transient connectivity failure (timeout or connection error)
during session restoration, the browser storage is left exactly as it was:
no CLEAR reaches any tier, so the persisted credentials in localStorage
and the cookie survive for a later restoration attempt. -/
theorem transient_failure_preserves_storage :
    ∀ (s : SessionState) (b : Browser) (view : BridgeView) (net : NetResult)
      (now : Nat),
      net = NetResult.timeout ∨ net = NetResult.connError →
      (try_restore_session s b view net now).browser = b := by
  intro s b view net now hnet
  unfold try_restore_session
  split
  · rfl
  · split
    · rfl
    · split
      · rfl
      · split
        · rcases hnet with h | h <;> subst h <;>
            · unfold restore_exchange
              repeat' split
              all_goals simp_all
        · rfl

/-- C6 witness: a concrete restoration pass that finds a credential but
times out leaves the stored credential untouched. -/
theorem transient_failure_preserves_storage_witness :
    (try_restore_session initState
        ⟨none, some (.payload ⟨some "user@example.com", some "REFRESHTOKEN12345678",
                               none, none, none⟩), none⟩
        ⟨some (.payload ⟨some "user@example.com", some "REFRESHTOKEN12345678",
                         none, none, none⟩), none⟩
        NetResult.timeout 0).browser =
      ⟨none, some (.payload ⟨some "user@example.com", some "REFRESHTOKEN12345678",
                             none, none, none⟩), none⟩ :=
  transient_failure_preserves_storage initState
    ⟨none, some (.payload ⟨some "user@example.com", some "REFRESHTOKEN12345678",
                           none, none, none⟩), none⟩
    ⟨some (.payload ⟨some "user@example.com", some "REFRESHTOKEN12345678",
                     none, none, none⟩), none⟩
    NetResult.timeout 0 (Or.inl rfl)

/-- C8: logout always completes local invalidation regardless of the
server notification's outcome `net`: both storage tiers are cleared and
every process-memory session field (user_token, user_email, refresh_token,
user_id, username, remember_me and the restore flags) returns to its
logged-out default, i.e. the state equals `initState`. -/
theorem logout_always_invalidates :
    ∀ (s : SessionState) (b : Browser) (net : NetResult),
      logout s b net =
        (initState, { b with localStorage := none, cookie := none }) := by
  intro s b net
  rfl

/-- C7: `login` surfaces the server's `detail` message verbatim on any
non-2xx response, and returns fixed generic connectivity messages —
containing no server-provided text — on timeout and connection error. -/
theorem login_error_messages :
    (∀ (s : SessionState) (b : Browser) (email password : String) (rm : Bool)
       (r : HttpResponse) (now : Nat) (body : RespBody) (d : String),
      r.status < 200 ∨ 300 ≤ r.status → r.body = some body →
      body.detail = some d →
      (login s b email password rm (NetResult.response r) now).2.2 =
        ⟨false, d⟩) ∧
    (∀ (s : SessionState) (b : Browser) (email password : String) (rm : Bool)
       (now : Nat),
      (login s b email password rm NetResult.timeout now).2.2 =
        ⟨false, "連接超時，請稍後再試"⟩) ∧
    (∀ (s : SessionState) (b : Browser) (email password : String) (rm : Bool)
       (now : Nat),
      (login s b email password rm NetResult.connError now).2.2 =
        ⟨false, "無法連接伺服器"⟩) := by
  refine ⟨?_, ?_, ?_⟩
  · intro s b email password rm r now body d hst hbody hdet
    have h200 : r.status ≠ 200 := by omega
    simp [login, h200, hbody, hdet]
  · intro s b email password rm now
    rfl
  · intro s b email password rm now
    rfl

/-- C7 witness: a concrete 401 with a `detail` field surfaces that detail
verbatim. -/
theorem login_error_messages_witness :
    (login initState ⟨none, none, none⟩ "user@example.com" "pw" false
        (NetResult.response ⟨401, some ⟨none, none, some "Invalid credentials"⟩⟩)
        0).2.2 = ⟨false, "Invalid credentials"⟩ :=
  login_error_messages.1 initState ⟨none, none, none⟩ "user@example.com" "pw"
    false ⟨401, some ⟨none, none, some "Invalid credentials"⟩⟩ 0
    ⟨none, none, some "Invalid credentials"⟩ "Invalid credentials"
    (by decide) rfl rfl

/-- C1 counterexample: process memory holds user A's Access Token while
the browser-side storage reports user B's credential, yet the next render
pass still holds the token — no Consistency Guard fires. -/
theorem consistency_guard_missing_cex :
    (try_restore_session
        ⟨some "ACCESS_TOKEN_A", some "userA@example.com",
         some "REFRESH_A_000000000000", none, none, true, 0, true, false⟩
        ⟨none,
         some (.payload ⟨some "userB@example.com", some "REFRESH_B_000000000000",
                         none, none, none⟩),
         some (.payload ⟨some "userB@example.com", some "REFRESH_B_000000000000",
                         none, none, none⟩)⟩
        ⟨some (.payload ⟨some "userB@example.com", some "REFRESH_B_000000000000",
                         none, none, none⟩),
         some (.payload ⟨some "userB@example.com", some "REFRESH_B_000000000000",
                         none, none, none⟩)⟩
        NetResult.timeout 0).state.user_token = some "ACCESS_TOKEN_A" ∧
    ("userA@example.com" : String) ≠ "userB@example.com" := by
  constructor
  · rfl
  · decide

/-- C1 amended: `try_restore_session` performs no comparison between the
in-memory identity and the browser-reported one.  Whenever an Access
Token is in process memory it returns True immediately, with zero bridge
reads and zero network calls, and the token survives to the next render
pass regardless of what the browser storage holds. -/
theorem authenticated_short_circuit :
    ∀ (s : SessionState) (b : Browser) (view : BridgeView) (net : NetResult)
      (now : Nat) (t : String),
      s.user_token = some t →
      try_restore_session s b view net now =
        ⟨{ s with cookie_restore_done := true }, b, true, 0, 0⟩ ∧
      (try_restore_session s b view net now).state.user_token = some t := by
  intro s b view net now t ht
  have h1 : try_restore_session s b view net now =
      ⟨{ s with cookie_restore_done := true }, b, true, 0, 0⟩ := by
    unfold try_restore_session
    simp [is_authenticated, ht]
  refine ⟨h1, ?_⟩
  rw [h1]
  exact ht

/-- C1 witness: a concrete authenticated state short-circuits. -/
theorem authenticated_short_circuit_witness :
    try_restore_session
        ⟨some "TOKEN", none, none, none, none, false, 0, false, false⟩
        ⟨none, none, none⟩ ⟨none, none⟩ NetResult.timeout 0 =
      ⟨⟨some "TOKEN", none, none, none, none, false, 0, true, false⟩,
       ⟨none, none, none⟩, true, 0, 0⟩ :=
  (authenticated_short_circuit
    ⟨some "TOKEN", none, none, none, none, false, 0, false, false⟩
    ⟨none, none, none⟩ ⟨none, none⟩ NetResult.timeout 0 "TOKEN" rfl).1

/-- C2: on a fresh anonymous visit with nothing in any storage tier, every
render pass of `main` — not just the ones inside the tolerance window —
shows the loading screen and issues zero Credential Gateway calls; the
login page is never rendered, because app.py line 1478 tests the session
key `auth_restore_done` which no code ever sets (the restore flow sets
`cookie_restore_done`). -/
theorem anonymous_visit_loading_forever :
    ∀ (net : NetResult) (now n : Nat),
      runAnon ⟨none, none, none⟩ net now n =
        (⟨none, none, none, none, none, false, 1, true, false⟩,
         ⟨none, none, none⟩, Page.loading, 0) := by
  intro net now n
  induction n with
  | zero =>
    simp [runAnon, main_render, try_restore_session, restore_read,
          load_auth_from_localstorage, load_auth_cookie, is_authenticated,
          initState, MAX_RESTORE_ATTEMPTS, get_auth_restore_done]
  | succ n ih =>
    rw [runAnon, ih]
    have hnoop := restore_noop
      ⟨none, none, none, none, none, false, 1, true, false⟩
      ⟨none, none, none⟩ ⟨none, none⟩ net now rfl rfl
    simp [main_render, hnoop, get_auth_restore_done, is_authenticated]

/-- C3 counterexample: the server rejects the stored credential with a
401, yet the localStorage tier still holds the persisted credential
afterwards — only the cookie is cleared. -/
theorem rejection_leaves_localstorage_cex :
    (try_restore_session initState
        ⟨none,
         some (.payload ⟨some "user@example.com", some "REFRESHTOKEN12345678",
                         none, none, none⟩),
         some (.payload ⟨some "user@example.com", some "REFRESHTOKEN12345678",
                         none, none, none⟩)⟩
        ⟨some (.payload ⟨some "user@example.com", some "REFRESHTOKEN12345678",
                         none, none, none⟩),
         some (.payload ⟨some "user@example.com", some "REFRESHTOKEN12345678",
                         none, none, none⟩)⟩
        (NetResult.response ⟨401, some ⟨none, none, some "Session revoked"⟩⟩)
        0).browser =
      ⟨none,
       some (.payload ⟨some "user@example.com", some "REFRESHTOKEN12345678",
                       none, none, none⟩),
       none⟩ := by
  rfl

/-- C3 amended: when the verify/refresh exchange returns a non-200
status, the client clears only the cookie tier (localStorage is
deliberately left in place by `_sync_clear_auth_storage`), returns False
with the done flag set, and every later call for that browser session
makes zero network calls — the exchange is never retried. -/
theorem rejection_clears_cookie_only :
    ∀ (s : SessionState) (b : Browser) (view : BridgeView) (now : Nat)
      (d : AuthData) (r : HttpResponse) (e rt : String),
      s.user_token = none → s.cookie_restore_done = false →
      s.cookie_restore_attempts < MAX_RESTORE_ATTEMPTS →
      (restore_read view now).1 = some d →
      d.email = some e → e ≠ "" → d.refresh_token = some rt → rt ≠ "" →
      r.status ≠ 200 →
      (try_restore_session s b view (NetResult.response r) now).browser =
        { b with cookie := none } ∧
      (try_restore_session s b view (NetResult.response r) now).result = false ∧
      (try_restore_session s b view (NetResult.response r) now).gatewayCalls = 1 ∧
      (∀ (view2 : BridgeView) (net2 : NetResult) (now2 : Nat),
        try_restore_session
            (try_restore_session s b view (NetResult.response r) now).state
            (try_restore_session s b view (NetResult.response r) now).browser
            view2 net2 now2 =
          ⟨(try_restore_session s b view (NetResult.response r) now).state,
           (try_restore_session s b view (NetResult.response r) now).browser,
           false, 0, 0⟩) := by
  intro s b view now d r e rt ht hd hlt hrd he he0 hrt hrt0 hst
  rcases hview : restore_read view now with ⟨od, reads⟩
  rw [hview] at hrd
  simp only at hrd
  subst hrd
  have hmax : ¬ s.cookie_restore_attempts ≥ MAX_RESTORE_ATTEMPTS := by omega
  have hstep : try_restore_session s b view (NetResult.response r) now =
      restore_exchange
        { s with cookie_restore_attempts := s.cookie_restore_attempts + 1 }
        b d reads (NetResult.response r) := by
    unfold try_restore_session
    simp [is_authenticated, ht, hd, hmax, hview]
  have hex : restore_exchange
        { s with cookie_restore_attempts := s.cookie_restore_attempts + 1 }
        b d reads (NetResult.response r) =
      ⟨{ s with cookie_restore_attempts := s.cookie_restore_attempts + 1,
                cookie_restore_done := true },
       _sync_clear_auth_storage b, false, reads, 1⟩ := by
    unfold restore_exchange
    simp [he, hrt, he0, hrt0, hst]
  rw [hstep, hex]
  refine ⟨rfl, rfl, rfl, ?_⟩
  intro view2 net2 now2
  exact restore_noop _ _ view2 net2 now2 ht rfl

/-- C3 witness: a concrete 401 rejection clears the cookie only and is
not retried. -/
theorem rejection_clears_cookie_only_witness :
    (try_restore_session initState
        ⟨none,
         some (.payload ⟨some "usr@example.com", some "REFRESHTOKEN87654321",
                         none, none, none⟩),
         some (.payload ⟨some "usr@example.com", some "REFRESHTOKEN87654321",
                         none, none, none⟩)⟩
        ⟨some (.payload ⟨some "usr@example.com", some "REFRESHTOKEN87654321",
                         none, none, none⟩),
         some (.payload ⟨some "usr@example.com", some "REFRESHTOKEN87654321",
                         none, none, none⟩)⟩
        (NetResult.response ⟨401, none⟩) 0).result = false :=
  (rejection_clears_cookie_only initState
    ⟨none,
     some (.payload ⟨some "usr@example.com", some "REFRESHTOKEN87654321",
                     none, none, none⟩),
     some (.payload ⟨some "usr@example.com", some "REFRESHTOKEN87654321",
                     none, none, none⟩)⟩
    ⟨some (.payload ⟨some "usr@example.com", some "REFRESHTOKEN87654321",
                     none, none, none⟩),
     some (.payload ⟨some "usr@example.com", some "REFRESHTOKEN87654321",
                     none, none, none⟩)⟩
    0 ⟨some "usr@example.com", some "REFRESHTOKEN87654321", none, none, none⟩
    ⟨401, none⟩ "usr@example.com" "REFRESHTOKEN87654321"
    rfl rfl (by decide) rfl rfl (by decide) rfl (by decide) (by decide)).2.1

/-- C5 counterexample: a concrete browser whose tab-scoped store holds
one credential and whose localStorage holds a different one.  The READ
the claim describes (`restore_read_spec`, tab-scoped tier first) returns
the tab-scoped credential, but the code's READ (`restore_read`) returns
the localStorage one — and not because the tab-scoped value is invalid:
the code's own validation accepts it.  So the claimed priority order is
false of the code at this input. -/
theorem tab_scoped_never_consulted_cex :
    restore_read_spec
        ⟨some (.payload ⟨some "tab@example.com", some "TABREFRESH1234567890",
                         none, none, none⟩),
         some (.payload ⟨some "ls@example.com", some "LSREFRESH01234567890",
                         none, none, none⟩),
         none⟩ =
      some (.payload ⟨some "tab@example.com", some "TABREFRESH1234567890",
                      none, none, none⟩) ∧
    (restore_read
        (viewOf ⟨some (.payload ⟨some "tab@example.com", some "TABREFRESH1234567890",
                                 none, none, none⟩),
                 some (.payload ⟨some "ls@example.com", some "LSREFRESH01234567890",
                                 none, none, none⟩),
                 none⟩) 0).1 =
      some ⟨some "ls@example.com", some "LSREFRESH01234567890",
            none, none, none⟩ ∧
    load_auth_from_localstorage
        (some (.payload ⟨some "tab@example.com", some "TABREFRESH1234567890",
                         none, none, none⟩)) 0 =
      some ⟨some "tab@example.com", some "TABREFRESH1234567890",
            none, none, none⟩ ∧
    (⟨some "ls@example.com", some "LSREFRESH01234567890", none, none, none⟩ :
        AuthData) ≠
      ⟨some "tab@example.com", some "TABREFRESH1234567890", none, none, none⟩ := by
  refine ⟨rfl, rfl, rfl, by decide⟩

/-- C5 amended: READ-mode retrieval consults localStorage first and the
cookie second (there is no tab-scoped tier: the outcome is identical for
any two browsers agreeing on localStorage and cookie, whatever their
tab-scoped stores hold), returning the first value that survives the
loaders' field/checksum/expiry validation; any value it returns came from
a stored well-formed payload, so corrupt values are rejected by that
validation rather than by an explicit ≥20-character length check. -/
theorem read_priority_ls_then_cookie :
    (∀ (view : BridgeView) (now : Nat) (d : AuthData),
      load_auth_from_localstorage view.ls now = some d →
      restore_read view now = (some d, 1)) ∧
    (∀ (view : BridgeView) (now : Nat),
      load_auth_from_localstorage view.ls now = none →
      restore_read view now = (load_auth_cookie view.ck now, 2)) ∧
    (∀ (view : BridgeView) (now : Nat) (d : AuthData),
      (restore_read view now).1 = some d →
      view.ls = some (.payload d) ∨ view.ck = some (.payload d)) ∧
    (∀ (b1 b2 : Browser) (now : Nat),
      b1.localStorage = b2.localStorage → b1.cookie = b2.cookie →
      restore_read (viewOf b1) now = restore_read (viewOf b2) now) := by
  refine ⟨?_, ?_, ?_, ?_⟩
  · intro view now d h
    unfold restore_read
    rw [h]
  · intro view now h
    unfold restore_read
    rw [h]
    rcases hck : load_auth_cookie view.ck now with _ | d <;> rfl
  · intro view now d h
    unfold restore_read at h
    rcases hls : load_auth_from_localstorage view.ls now with _ | d1 <;>
      rw [hls] at h
    · rcases hck : load_auth_cookie view.ck now with _ | d2 <;> rw [hck] at h
      · exact absurd h (by simp)
      · simp only at h
        right
        exact load_ck_eq_payload view.ck now d (h ▸ hck)
    · simp only at h
      left
      exact load_ls_eq_payload view.ls now d (h ▸ hls)
  · intro b1 b2 now h1 h2
    simp [viewOf, h1, h2]

/-- C5 witness: a concrete localStorage hit is returned with priority. -/
theorem read_priority_ls_then_cookie_witness :
    restore_read
        ⟨some (.payload ⟨some "w@example.com", some "WITNESSREFRESH012345",
                         none, none, none⟩), none⟩ 0 =
      (some ⟨some "w@example.com", some "WITNESSREFRESH012345",
             none, none, none⟩, 1) :=
  read_priority_ls_then_cookie.1
    ⟨some (.payload ⟨some "w@example.com", some "WITNESSREFRESH012345",
                     none, none, none⟩), none⟩ 0
    ⟨some "w@example.com", some "WITNESSREFRESH012345", none, none, none⟩ rfl

/-- C9: round-trip — for any non-empty email and any refresh token of
length ≥ 20, a WRITE via `save_auth_dual` followed by a resolved READ
within the 7-day expiry window returns exactly the payload that was
written, carrying the very same email and refresh-token strings. -/
theorem write_then_read_roundtrip :
    ∀ (b : Browser) (email rt : String) (wNow rNow : Nat),
      email ≠ "" → 20 ≤ rt.length →
      rNow ≤ wNow + COOKIE_EXPIRY_DAYS * 86400 →
      restore_read (viewOf (save_auth_dual b email rt wNow)) rNow =
        (some (auth_payload email rt wNow), 1) ∧
      (auth_payload email rt wNow).email = some email ∧
      (auth_payload email rt wNow).refresh_token = some rt := by
  intro b email rt wNow rNow he hlen hexp
  have hrt : rt ≠ "" := by
    intro h0
    rw [h0] at hlen
    simp at hlen
  have hload : load_auth_from_localstorage
      (viewOf (save_auth_dual b email rt wNow)).ls rNow =
      some (auth_payload email rt wNow) :=
    (save_payload_loads email rt wNow rNow he hrt hexp).1
  refine ⟨?_, rfl, rfl⟩
  unfold restore_read
  rw [hload]

/-- C9 witness: a concrete write/read round-trip preserves the
credential. -/
theorem write_then_read_roundtrip_witness :
    restore_read
        (viewOf (save_auth_dual ⟨none, none, none⟩ "user@example.com"
          "REFRESHTOKEN12345678" 0)) 86400 =
      (some (auth_payload "user@example.com" "REFRESHTOKEN12345678" 0), 1) :=
  (write_then_read_roundtrip ⟨none, none, none⟩ "user@example.com"
    "REFRESHTOKEN12345678" 0 86400 (by decide) (by decide) (by decide)).1

/-- C10 counterexample: the cookie loader accepts a payload whose `email`
field is present but empty (and with no checksum or expiry present) —
the non-emptiness requirement does not hold for the cookie tier. -/
theorem cookie_accepts_empty_email_cex :
    load_auth_cookie (some (.payload ⟨some "", some "x", none, none, none⟩)) 0 =
      some ⟨some "", some "x", none, none, none⟩ := by
  rfl

/-- C10 amended: a payload is accepted by the localStorage loader iff its
email and refresh_token are present and non-empty, a present checksum
equals the first 16 hex characters of SHA-256 of "email:refresh_token",
and a present expires_at is not earlier than now; the cookie loader is
identical except it requires field presence only (empty strings pass).
Accepted values always come from a stored payload (corrupt values load as
None), a payload missing either field loads as None from both tiers, and
every payload `save_auth_dual` builds from non-empty inputs passes both
loaders at save time. -/
theorem persisted_payload_validation :
    (∀ (v : Option StoredVal) (now : Nat) (d : AuthData),
      load_auth_from_localstorage v now = some d → v = some (.payload d)) ∧
    (∀ (v : Option StoredVal) (now : Nat) (d : AuthData),
      load_auth_cookie v now = some d → v = some (.payload d)) ∧
    (∀ (d : AuthData) (now : Nat) (e r : String),
      d.email = some e → d.refresh_token = some r →
      (load_auth_from_localstorage (some (.payload d)) now = some d ↔
        (e ≠ "" ∧ r ≠ "" ∧
         (∀ c, d.checksum = some c → c = _compute_checksum e r) ∧
         (∀ t, d.expires_at = some t → now ≤ t)))) ∧
    (∀ (d : AuthData) (now : Nat) (e r : String),
      d.email = some e → d.refresh_token = some r →
      (load_auth_cookie (some (.payload d)) now = some d ↔
        ((∀ c, d.checksum = some c → c = _compute_checksum e r) ∧
         (∀ t, d.expires_at = some t → now ≤ t)))) ∧
    (∀ (d : AuthData) (now : Nat),
      d.email = none ∨ d.refresh_token = none →
      load_auth_from_localstorage (some (.payload d)) now = none ∧
      load_auth_cookie (some (.payload d)) now = none) ∧
    (∀ (email rt : String) (n : Nat),
      email ≠ "" → rt ≠ "" →
      load_auth_from_localstorage (some (.payload (auth_payload email rt n))) n =
        some (auth_payload email rt n) ∧
      load_auth_cookie (some (.payload (auth_payload email rt n))) n =
        some (auth_payload email rt n)) := by
  refine ⟨load_ls_eq_payload, load_ck_eq_payload, load_ls_accept_iff,
          load_ck_accept_iff, ?_, ?_⟩
  · intro d now h
    rcases he : d.email with _ | e <;> rcases hr : d.refresh_token with _ | r <;>
      simp_all [load_auth_from_localstorage, load_auth_cookie]
  · intro email rt n he hr
    exact save_payload_loads email rt n n he hr (Nat.le_add_right n _)

/-- C10 witness: a concrete payload built by `save_auth_dual` passes the
localStorage loader at save time. -/
theorem persisted_payload_validation_witness :
    load_auth_from_localstorage
        (some (.payload (auth_payload "wit@example.com" "WITREFRESHTOKEN01234" 7))) 7 =
      some (auth_payload "wit@example.com" "WITREFRESHTOKEN01234" 7) :=
  (persisted_payload_validation.2.2.2.2.2 "wit@example.com"
    "WITREFRESHTOKEN01234" 7 (by decide) (by decide)).1

end V7
